import Mathlib

/-!
Verification of the multi-protocol DNS resolution engine (yadnsb).

The engine is shallowly embedded: JS Buffers become `List Nat` of byte
values, the Node APIs the transports call (dns, fetch, tls) become explicit
environment parameters, and every handler is a pure function on an explicit
state. Each definition is translated from one source function, named after
it, and documented with the file it comes from.
-/

namespace Yadnsb

/-! ## Byte-level reads (Node Buffer semantics) -/

/-- `buf.readUInt16BE off` (Node): a big-endian 16-bit read that throws
`ERR_OUT_OF_RANGE` when fewer than two bytes are available at `off`;
`none` models the throw. -/
def readU16 (buf : List Nat) (off : Nat) : Option Nat :=
  if off + 2 ≤ buf.length then some (buf.getD off 0 * 256 + buf.getD (off + 1) 0)
  else none

/-- `(buffer[off] << 8) | buffer[off + 1]` with plain indexing: an
out-of-range JS index yields `undefined`, which the bitwise operators
coerce to `0`, so the read never throws. -/
def looseU16 (buf : List Nat) (off : Nat) : Nat :=
  buf.getD off 0 * 256 + buf.getD (off + 1) 0

/-- `buffer[i]` rendered inside a template literal: an in-range byte prints
in decimal, an out-of-range read prints as the string undefined. -/
def byteStr (buf : List Nat) (i : Nat) : String :=
  match buf.get? i with
  | some b => toString b
  | none => "undefined"

/-- The dotted-decimal string pushed for an A answer whose RDATA starts at
`off` (doh-resolver.js line 372, and the identical DoT line). -/
def ipv4Str (buf : List Nat) (off : Nat) : String :=
  byteStr buf off ++ "." ++ byteStr buf (off + 1) ++ "." ++
    byteStr buf (off + 2) ++ "." ++ byteStr buf (off + 3)

/-- `part.toString(16)`: lowercase hexadecimal with no zero padding. -/
def hexStr (n : Nat) : String := String.mk (Nat.toDigits 16 n)

/-- The colon-joined string pushed for an AAAA answer whose RDATA starts at
`off` (DoT parseDNSResponse); the eight 16-bit reads it renders are strict
`readUInt16BE` calls, known to be in range wherever this is used. -/
def ipv6Str (buf : List Nat) (off : Nat) : String :=
  String.intercalate ":"
    ((List.range 8).map fun j =>
      hexStr (buf.getD (off + j * 2) 0 * 256 + buf.getD (off + j * 2 + 1) 0))

/-! ## The label walk and its divergence -/

/-- Iterations of the label walk shared by both decoders:
`while (buffer[offset] !== 0) offset += buffer[offset] + 1`.
Returns the offset of the terminating zero byte. When the walk steps past
the end of the buffer, `buffer[offset]` is `undefined`, the JS offset
becomes `NaN` and the loop never exits; `none` models that divergence
(`jsWalkFuel` below makes the modelling explicit). -/
def skipNameAux (buf : List Nat) : Nat → Nat → Option Nat
  | 0, _ => none
  | fuel + 1, off =>
    if h : off < buf.length then
      if buf.get ⟨off, h⟩ = 0 then some off
      else skipNameAux buf fuel (off + buf.get ⟨off, h⟩ + 1)
    else none

/-- The full label walk. The fuel `buf.length + 1` strictly bounds the
iteration count: every iteration enters with a distinct, strictly larger
offset below `buf.length`, so at most `buf.length` iterations run before
the loop exits at a zero byte or runs past the end; the fuel-exhausted
case is unreachable and the function computes the exact loop outcome. -/
def skipName (buf : List Nat) (off : Nat) : Option Nat :=
  skipNameAux buf (buf.length + 1) off

/-- Fuel-indexed run of the same JS loop, with the offset as a JS number:
`none` in the offset position stands for `NaN` (an out-of-range read made
it so, since `undefined + 1` is `NaN`), and a `none` result means the loop
is still running after `fuel` iterations. -/
def jsWalkFuel (buf : List Nat) : Nat → Option Nat → Option Nat
  | 0, _ => none
  | fuel + 1, none => jsWalkFuel buf fuel none
  | fuel + 1, some off =>
    if h : off < buf.length then
      if buf.get ⟨off, h⟩ = 0 then some off
      else jsWalkFuel buf fuel (some (off + buf.get ⟨off, h⟩ + 1))
    else jsWalkFuel buf fuel none

/-! ## The decoders -/

/-- Outcome of one decoder call: `ok` is the returned answer list, `err` a
thrown `ERR_OUT_OF_RANGE` from a strict `readUInt16BE` (re-thrown wrapped
by the decoder catch block), `hang` a label walk that never terminates. -/
inductive DecodeResult where
  | ok (answers : List String)
  | err
  | hang
deriving DecidableEq, Repr

/-- Prepends an answer to a successful decode, as `answers.push` before the
loop continues; a thrown or hung continuation discards everything pushed. -/
def consOk (s : String) : DecodeResult → DecodeResult
  | .ok l => .ok (s :: l)
  | r => r

/-- The QDCOUNT loop of both decoders: walk each question name to its zero
byte, then `offset += 5` (the zero byte plus QTYPE and QCLASS). -/
def skipQuestions (buf : List Nat) (off : Nat) : Nat → Option Nat
  | 0 => some off
  | n + 1 =>
    match skipName buf off with
    | none => none
    | some z => skipQuestions buf (z + 5) n

/-- Offset past the answer name: a compression pointer
(`(buffer[offset] & 0xC0) === 0xC0`, loose read) consumes two bytes,
otherwise the name is walked to its zero byte and one more byte consumed. -/
def nameEnd (buf : List Nat) (off : Nat) : Option Nat :=
  if buf.getD off 0 &&& 0xC0 = 0xC0 then some (off + 2)
  else (skipName buf off).map (· + 1)

/-- The ANCOUNT loop of `DoTResolver.parseDNSResponse`: TYPE and RDLENGTH
are strict `readUInt16BE` reads; A answers (TYPE 1, RDLENGTH 4) push a
dotted-decimal string, AAAA answers (TYPE 28, RDLENGTH 16) push the eight
strict hex groups, every other answer only advances past its RDATA. -/
def dotAnswers (buf : List Nat) : Nat → Nat → DecodeResult
  | _, 0 => .ok []
  | off, count + 1 =>
    match nameEnd buf off with
    | none => .hang
    | some o1 =>
      match readU16 buf o1, readU16 buf (o1 + 8) with
      | some t, some rl =>
        if t = 1 ∧ rl = 4 then
          consOk (ipv4Str buf (o1 + 10)) (dotAnswers buf (o1 + 10 + rl) count)
        else if t = 28 ∧ rl = 16 then
          if o1 + 10 + 16 ≤ buf.length then
            consOk (ipv6Str buf (o1 + 10)) (dotAnswers buf (o1 + 10 + rl) count)
          else .err
        else dotAnswers buf (o1 + 10 + rl) count
      | none, _ => .err
      | some _, none => .err

/-- `DoTResolver.parseDNSResponse` (the logger variant and the plain
variant are identical): QDCOUNT is read strictly, the questions are
skipped, ANCOUNT is read strictly, then the answer loop runs. -/
def parseDNSResponse (buf : List Nat) : DecodeResult :=
  match readU16 buf 4 with
  | none => .err
  | some qd =>
    match skipQuestions buf 12 qd with
    | none => .hang
    | some off =>
      match readU16 buf 6 with
      | none => .err
      | some an => dotAnswers buf off an

/-- The ANCOUNT loop of `DoHResolver.parseDNSMessage`
(src/lib/doh-resolver.js lines 356 to 377): all reads are loose plain
indexing, and only A answers (TYPE 1, RDLENGTH 4) are pushed; there is no
AAAA branch. No read here can throw. -/
def dohAnswers (buf : List Nat) : Nat → Nat → DecodeResult
  | _, 0 => .ok []
  | off, count + 1 =>
    match nameEnd buf off with
    | none => .hang
    | some o1 =>
      let t := looseU16 buf o1
      let rl := looseU16 buf (o1 + 8)
      if t = 1 ∧ rl = 4 then
        consOk (ipv4Str buf (o1 + 10)) (dohAnswers buf (o1 + 10 + rl) count)
      else dohAnswers buf (o1 + 10 + rl) count

/-- `DoHResolver.parseDNSMessage` (src/lib/doh-resolver.js lines 342 to
383): QDCOUNT and ANCOUNT are loose reads, so a short buffer yields 0
rather than throwing. -/
def parseDNSMessage (buf : List Nat) : DecodeResult :=
  match skipQuestions buf 12 (looseU16 buf 4) with
  | none => .hang
  | some off => dohAnswers buf off (looseU16 buf 6)

/-! ## Answer-record layout, separated from extraction -/

/-- One answer record as laid out in the message: its TYPE, RDLENGTH and
the offset where its RDATA starts. -/
structure AnsRec where
  rtype : Nat
  rdlen : Nat
  rdOff : Nat
deriving DecidableEq, Repr

/-- The offsets the strict answer loop visits, with no extraction: the
record headers in answer order. `none` when the walk diverges or a strict
header read is out of range. -/
def dotLayout (buf : List Nat) : Nat → Nat → Option (List AnsRec)
  | _, 0 => some []
  | off, count + 1 =>
    match nameEnd buf off with
    | none => none
    | some o1 =>
      match readU16 buf o1, readU16 buf (o1 + 8) with
      | some t, some rl =>
        (dotLayout buf (o1 + 10 + rl) count).map (⟨t, rl, o1 + 10⟩ :: ·)
      | _, _ => none

/-- The offsets the loose answer loop visits, with no extraction. -/
def dohLayout (buf : List Nat) : Nat → Nat → Option (List AnsRec)
  | _, 0 => some []
  | off, count + 1 =>
    match nameEnd buf off with
    | none => none
    | some o1 =>
      (dohLayout buf (o1 + 10 + looseU16 buf (o1 + 8)) count).map
        (⟨looseU16 buf o1, looseU16 buf (o1 + 8), o1 + 10⟩ :: ·)

/-- What the DoT loop emits for one laid-out record: A and AAAA answers
produce a string, everything else nothing. -/
def dotExtract (buf : List Nat) (r : AnsRec) : Option String :=
  if r.rtype = 1 ∧ r.rdlen = 4 then some (ipv4Str buf r.rdOff)
  else if r.rtype = 28 ∧ r.rdlen = 16 then some (ipv6Str buf r.rdOff)
  else none

/-- What the DoH loop emits for one laid-out record: only A answers
produce a string. -/
def dohExtract (buf : List Nat) (r : AnsRec) : Option String :=
  if r.rtype = 1 ∧ r.rdlen = 4 then some (ipv4Str buf r.rdOff) else none

/-- Answer layout of a whole DoT message. -/
def dotAnswerLayout (buf : List Nat) : Option (List AnsRec) :=
  match readU16 buf 4 with
  | none => none
  | some qd =>
    match skipQuestions buf 12 qd with
    | none => none
    | some off =>
      match readU16 buf 6 with
      | none => none
      | some an => dotLayout buf off an

/-- Answer layout of a whole DoH message. -/
def dohAnswerLayout (buf : List Nat) : Option (List AnsRec) :=
  match skipQuestions buf 12 (looseU16 buf 4) with
  | none => none
  | some off => dohLayout buf off (looseU16 buf 6)

/-! ## The query encoder -/

/-- `type.toUpperCase()`, modelled with the core ASCII `Char.toUpper`
(faithful for the ASCII record-type strings the engine deals in). -/
def jsToUpper (s : String) : String := String.mk (s.data.map Char.toUpper)

/-- `type.toLowerCase()`, likewise ASCII. -/
def jsToLower (s : String) : String := String.mk (s.data.map Char.toLower)

/-- The record-type table `getDNSType` shared verbatim by the DoH, DoT and
DoQ resolvers: lookup of the uppercased string, any miss defaulting to 1
(the `|| 1` in the source). -/
def getDNSType (ty : String) : Nat :=
  let u := jsToUpper ty
  if u = "A" then 1
  else if u = "AAAA" then 28
  else if u = "MX" then 15
  else if u = "TXT" then 16
  else if u = "NS" then 2
  else if u = "CNAME" then 5
  else if u = "SOA" then 6
  else if u = "PTR" then 12
  else 1

/-- The char-level split behind `domain.split(".")`: a new segment opens
at every dot. -/
def splitOnDot : List Char → List (List Char)
  | [] => [[]]
  | c :: rest =>
    if c = '.' then [] :: splitOnDot rest
    else
      match splitOnDot rest with
      | [] => [[c]]
      | l :: ls => (c :: l) :: ls

/-- `domain.split(".")`. -/
def jsSplitDot (s : String) : List String := (splitOnDot s.data).map String.mk

/-- `message.write(label, offset, "ascii")`: Node encodes each UTF-16 code
unit as its low byte (for encoding, ascii is latin1); modelled over the
scalar values of the Lean string, faithful for ASCII labels. -/
def labelBytes (s : String) : List Nat := s.data.map fun c => c.toNat % 256

/-- The two bytes `writeUInt16BE` stores for an in-range value. -/
def u16be (n : Nat) : List Nat := [n / 256 % 256, n % 256]

/-- The fixed 12-byte header `createDNSMessage` writes: transaction id,
flags 0x0100, QDCOUNT 1, ANCOUNT, NSCOUNT and ARCOUNT 0. -/
def dnsHeader (tid : Nat) : List Nat :=
  u16be tid ++ u16be 0x0100 ++ u16be 1 ++ u16be 0 ++ u16be 0 ++ u16be 0

/-- The label-writing loop of `createDNSMessage`: `bytes` is the prefix of
the 512-byte buffer written so far, its length the JS offset. `none`
models a throwing `writeUInt8` (a label length above 255, or an offset
past index 511). A truncating `message.write` always drives the offset
past 512, so a later write throws and the result is `none`; in every
`some` outcome each write was therefore complete and sequential. -/
def writeLabels (bytes : List Nat) : List String → Option (List Nat)
  | [] => some bytes
  | l :: rest =>
    if l.length ≤ 255 ∧ bytes.length < 512 then
      writeLabels (bytes ++ l.length :: labelBytes l) rest
    else none

/-- `createDNSMessage(domain, type)` of src/lib/doh-resolver.js lines 305
to 340 (`createDNSQuery` in the DoT and DoQ resolvers is the same code):
header, then each dot-separated label length-prefixed, a zero terminator,
QTYPE and QCLASS 1, the buffer sliced at the final offset. `tid` is the
random 16-bit transaction id (`Math.floor(Math.random() * 65536)`); the
guards model the `writeUInt8` and `writeUInt16BE` range checks against
the 512-byte buffer. -/
def createDNSMessage (tid : Nat) (domain : String) (dnsType : Nat) : Option (List Nat) :=
  match writeLabels (dnsHeader (tid % 65536)) (jsSplitDot domain) with
  | none => none
  | some bytes =>
    if bytes.length < 512 then
      if dnsType ≤ 65535 ∧ bytes.length + 3 ≤ 512 then
        if bytes.length + 5 ≤ 512 then
          some (bytes ++ [0] ++ u16be dnsType ++ u16be 1)
        else none
      else none
    else none

/-- The question section as the spec describes it: each label preceded by
its length byte, a zero byte, QTYPE, QCLASS 1. -/
def questionSection (domain : String) (dnsType : Nat) : List Nat :=
  ((jsSplitDot domain).map fun l => l.length :: labelBytes l).flatten ++
    [0] ++ u16be dnsType ++ u16be 1

/-! ## The unified result model -/

/-- A JS value carried in the `result` field: the classic resolver passes
whatever the dns library returned through unchecked, so the field may hold
a non-list shape. -/
inductive JsVal where
  | strs (xs : List String)
  | raw (desc : String)
deriving DecidableEq, Repr

/-- A parsed JSON DoH answer entry: `none` in a field models a property
the object does not carry (`hasOwnProperty` false). -/
structure JAnswer where
  atype : Option Nat
  adata : Option String
deriving DecidableEq, Repr

/-- The top-level JSON DoH body: `status` is `data.Status` (`none` when
the property is absent, so the JS compare reads `undefined`), `answer` is
`data.Answer`, `hasAuthority` whether an Authority section is present. -/
structure DnsJson where
  status : Option Int
  answer : Option (List JAnswer)
  hasAuthority : Bool
deriving DecidableEq, Repr

/-- The `rawResponse` field: wire bytes for DoT, the parsed JSON object
for the DoH GET json path. -/
inductive RawResp where
  | bytes (bs : List Nat)
  | jsonVal (j : DnsJson)
deriving DecidableEq, Repr

/-- The server descriptor fields the engine reads. -/
structure DNSServer where
  name : String
  address : String
  port : Option Nat
deriving DecidableEq, Repr

/-- The structurally uniform record every transport returns. A field the
source object omits is `none`. -/
structure ResolutionResult where
  success : Bool
  responseTime : Nat
  result : Option JsVal
  error : Option String
  server : DNSServer
  domain : String
  rtype : String
  method : Option String
  rawResponse : Option RawResp
  note : Option String
deriving DecidableEq, Repr

/-- The result and error shape the spec demands: success carries a result
and no error, failure carries an error and no result. -/
def shapeOK (r : ResolutionResult) : Bool :=
  (r.success && r.result.isSome && r.error.isNone) ||
    (!r.success && r.error.isSome && r.result.isNone)

/-- A thrown JS error as the handlers inspect it: its `name`, optional
`code` and `message`. -/
structure JsError where
  name : String
  code : Option String
  message : String
deriving DecidableEq, Repr

/-- `haystack.includes(pattern)` on JS strings. -/
def charsHaveInfix (hay pat : List Char) : Bool :=
  match hay with
  | [] => pat.isEmpty
  | _ :: rest => pat.isPrefixOf hay || charsHaveInfix rest pat

/-- `s.includes(pat)`. -/
def jsIncludes (s pat : String) : Bool := charsHaveInfix s.toList pat.toList

/-! ## ClassicTransport (src/lib/dns-resolver.js) -/

/-- Which underlying `dns.Resolver` call the switch selects. -/
inductive RMethod where
  | r4
  | r6
  | rMx
  | rTxt
  | rNs
  | rCname
deriving DecidableEq, Repr

/-- The `switch (type.toLowerCase())` of `DNSResolver.resolve`: unknown
types fall through to `resolve4`. -/
def classicMethodFor (rtype : String) : RMethod :=
  let t := jsToLower rtype
  if t = "a" then .r4
  else if t = "aaaa" then .r6
  else if t = "mx" then .rMx
  else if t = "txt" then .rTxt
  else if t = "ns" then .rNs
  else if t = "cname" then .rCname
  else .r4

/-- The only instance state `DNSResolver` has. -/
structure ClassicState where
  timeout : Nat
deriving DecidableEq, Repr

/-- `DNSResolver.setTimeout(timeout)`: `this.timeout = timeout`. -/
def ClassicState.setTimeout (t : Nat) (_st : ClassicState) : ClassicState :=
  ⟨t⟩

/-- Behaviour of the node dns library for one call, plus the elapsed time
`performance.now()` deltas report. -/
structure ClassicEnv where
  outcome : RMethod → Except JsError JsVal
  elapsed : Nat

/-- `DNSResolver.resolve` (src/lib/dns-resolver.js lines 9 to 83): the
selected dns call either yields a value, passed through as `result` on a
success record, or throws, captured as `error.message` on a failure
record; nothing else in the body reads `this`, in particular not
`st.timeout`. The try block catches every throw, so the model is total. -/
def classicResolve (_st : ClassicState) (env : ClassicEnv) (domain : String)
    (server : DNSServer) (rtype : String) : ResolutionResult :=
  match env.outcome (classicMethodFor rtype) with
  | .ok v =>
    { success := true, responseTime := env.elapsed, result := some v,
      error := none, server := server, domain := domain, rtype := rtype,
      method := none, rawResponse := none, note := none }
  | .error e =>
    { success := false, responseTime := env.elapsed, result := none,
      error := some e.message, server := server, domain := domain,
      rtype := rtype, method := none, rawResponse := none, note := none }

/-! ## DoQStub (src/lib/doq-resolver.js) -/

/-- The fixed error string of the DoQ stub. -/
def doqError : String :=
  "DNS over QUIC (DoQ) is not yet implemented in this version. QUIC protocol support requires additional dependencies."

/-- The fixed note field of the DoQ stub. -/
def doqNote : String :=
  "DoQ implementation would require libraries like @quic/quic or similar QUIC protocol implementations"

/-- `DoQResolver.resolve` (src/lib/doq-resolver.js lines 9 to 70): builds
and returns the fixed not-implemented failure record without touching any
I/O; the model takes no environment because the source performs none. -/
def doqResolve (domain : String) (server : DNSServer) (rtype : String)
    (rt : Nat) : ResolutionResult :=
  { success := false, responseTime := rt, result := none,
    error := some doqError, server := server, domain := domain,
    rtype := rtype, method := none, rawResponse := none,
    note := some doqNote }

/-! ## DoHTransport (src/lib/doh-resolver.js) -/

/-- An HTTP method of the provider table. -/
inductive HMethod where
  | POST
  | GET
deriving DecidableEq, Repr

/-- A wire format of the provider table. -/
inductive HFormat where
  | wireformat
  | json
deriving DecidableEq, Repr

/-- One entry of `this.providerConfigs`. -/
structure ProviderConfig where
  method : HMethod
  format : HFormat
deriving DecidableEq, Repr

/-- `this.providerConfigs` in constructor order (`Object.entries`
preserves string-key insertion order). -/
def providerConfigs : List (String × ProviderConfig) :=
  [("dns.google", ⟨.POST, .wireformat⟩),
   ("dns10.quad9.net", ⟨.POST, .wireformat⟩),
   ("doh.opendns.com", ⟨.POST, .wireformat⟩),
   ("dns.adguard-dns.com", ⟨.POST, .wireformat⟩),
   ("freedns.controld.com", ⟨.POST, .wireformat⟩),
   ("dns.mullvad.net", ⟨.POST, .wireformat⟩),
   ("cloudflare-dns.com", ⟨.GET, .json⟩),
   ("dns.nextdns.io", ⟨.GET, .json⟩)]

/-- The lookup loop of `getProviderConfig`: first table key the address
contains wins. -/
def findConfig (addr : String) : List (String × ProviderConfig) → ProviderConfig
  | [] => ⟨.GET, .json⟩
  | (dom, cfg) :: rest => if jsIncludes addr dom then cfg else findConfig addr rest

/-- `DoHResolver.getProviderConfig` (src/lib/doh-resolver.js lines 20 to
27): substring match over the table, defaulting to GET plus json. -/
def getProviderConfig (addr : String) : ProviderConfig :=
  findConfig addr providerConfigs

/-- The response object one `fetch` resolves with: status data, the
`content-type` header (`none` models a null header), the body as bytes
(`arrayBuffer`), as text (`text`), and the outcome `JSON.parse` would
have on that text (`none` models the parse throwing). -/
structure HttpResp where
  ok : Bool
  status : Nat
  statusText : String
  contentType : Option String
  bodyBytes : List Nat
  bodyText : String
  bodyJson : Option DnsJson
deriving DecidableEq, Repr

/-- One `await fetch(...)`: either a response or a rejection (network
error, or the AbortError the timeout controller raises). -/
inductive FetchOutcome where
  | resp (r : HttpResp)
  | thrown (e : JsError)
deriving DecidableEq

/-- Outcome of one attempt function: a returned record, a thrown error
(caught by the caller), or a decode loop that never returns. -/
inductive AttemptResult where
  | ok (r : ResolutionResult)
  | thrown (e : JsError)
  | hang
deriving DecidableEq

/-- `contentType && contentType.includes(pat)`: a null header is falsy. -/
def ctIncludes (ct : Option String) (pat : String) : Bool :=
  match ct with
  | some s => jsIncludes s pat
  | none => false

/-- A header or field interpolated into a template literal: JS prints null
for a missing header. -/
def ctStr (ct : Option String) : String :=
  match ct with
  | some s => s
  | none => "null"

/-- `data.Status` interpolated into a template literal: an absent property
prints as undefined. -/
def statusStr (st : Option Int) : String :=
  match st with
  | some n => toString n
  | none => "undefined"

/-- `extractAnswersFromJSON(data, dnsType)` (src/lib/doh-resolver.js lines
244 to 259): keep the `Answer` entries that carry both a `type` and a
`data` property and whose numeric type equals the queried code; emit each
kept `answer.data` verbatim. A missing `Answer` array reads as `[]`. -/
def extractAnswersFromJSON (data : DnsJson) (dnsType : Nat) : List String :=
  (((data.answer.getD []).filter fun a =>
      a.atype.isSome && a.adata.isSome && a.atype == some dnsType).map
    fun a => a.adata.getD "")

/-- `resolveWithPOST` (src/lib/doh-resolver.js lines 62 to 132): non-2xx
throws; a dns-message content type goes through `parseDNSMessage`; a json
content type goes through `JSON.parse` (a parse throw propagates, its
message starting Unexpected token) and `extractAnswersFromJSON`; any other
content type throws. A success returns method POST. -/
def resolveWithPOST (domain : String) (server : DNSServer) (rtype : String)
    (rt : Nat) (fetched : FetchOutcome) : AttemptResult :=
  match fetched with
  | .thrown e => .thrown e
  | .resp r =>
    if !r.ok then
      .thrown ⟨"Error", none, "HTTP " ++ toString r.status ++ ": " ++ r.statusText⟩
    else if ctIncludes r.contentType "application/dns-message" then
      match parseDNSMessage r.bodyBytes with
      | .ok answers =>
        .ok { success := true, responseTime := rt, result := some (.strs answers),
              error := none, server := server, domain := domain, rtype := rtype,
              method := some "POST", rawResponse := none, note := none }
      | .err => .thrown ⟨"Error", none, "Failed to parse DNS message"⟩
      | .hang => .hang
    else if ctIncludes r.contentType "application/json" ||
        ctIncludes r.contentType "application/dns-json" then
      match r.bodyJson with
      | none => .thrown ⟨"SyntaxError", none, "Unexpected token"⟩
      | some data =>
        .ok { success := true, responseTime := rt,
              result := some (.strs (extractAnswersFromJSON data (getDNSType rtype))),
              error := none, server := server, domain := domain, rtype := rtype,
              method := some "POST", rawResponse := none, note := none }
    else .thrown ⟨"Error", none, "Unexpected content type: " ++ ctStr r.contentType⟩

/-- `resolveWithGET` (src/lib/doh-resolver.js lines 134 to 242): non-2xx
throws; a dns-message content type returns method GET-binary via
`parseDNSMessage`; a json content type parses the text (a parse failure
is wrapped and rethrown), then throws whenever `data.Status !== 0`, and
otherwise returns method GET-json with the extracted answers and the raw
parsed body; any other content type throws. -/
def resolveWithGET (domain : String) (server : DNSServer) (rtype : String)
    (rt : Nat) (fetched : FetchOutcome) : AttemptResult :=
  match fetched with
  | .thrown e => .thrown e
  | .resp r =>
    if !r.ok then
      .thrown ⟨"Error", none, "HTTP " ++ toString r.status ++ ": " ++ r.statusText⟩
    else if ctIncludes r.contentType "application/dns-message" then
      match parseDNSMessage r.bodyBytes with
      | .ok answers =>
        .ok { success := true, responseTime := rt, result := some (.strs answers),
              error := none, server := server, domain := domain, rtype := rtype,
              method := some "GET-binary", rawResponse := none, note := none }
      | .err => .thrown ⟨"Error", none, "Failed to parse DNS message"⟩
      | .hang => .hang
    else if ctIncludes r.contentType "application/json" ||
        ctIncludes r.contentType "application/dns-json" then
      match r.bodyJson with
      | none =>
        .thrown ⟨"Error", none, "Failed to parse JSON response: Unexpected token"⟩
      | some data =>
        if data.status ≠ some 0 then
          .thrown ⟨"Error", none,
            "DNS query failed with status: " ++ statusStr data.status⟩
        else
          .ok { success := true, responseTime := rt,
                result := some (.strs (extractAnswersFromJSON data (getDNSType rtype))),
                error := none, server := server, domain := domain, rtype := rtype,
                method := some "GET-json", rawResponse := some (.jsonVal data),
                note := none }
    else
      .thrown ⟨"Error", none,
        "Invalid content type: " ++ ctStr r.contentType ++ ". Expected JSON or DNS message."⟩

/-- `handleError` (src/lib/doh-resolver.js lines 261 to 288): classify the
second failure into a message and build the failure record. -/
def handleError (e : JsError) (timeoutMs rt : Nat) (server : DNSServer)
    (domain rtype : String) : ResolutionResult :=
  let msg :=
    if e.name = "AbortError" then
      "Request timeout after " ++ toString timeoutMs ++ "ms"
    else if e.code = some "ENOTFOUND" then
      "DNS server not found: " ++ server.address
    else if e.code = some "ECONNREFUSED" then
      "Connection refused to " ++ server.address
    else if jsIncludes e.message "Unexpected token" then
      "Invalid JSON response from DoH server"
    else e.message
  { success := false, responseTime := rt, result := none, error := some msg,
    server := server, domain := domain, rtype := rtype, method := none,
    rawResponse := none, note := none }

/-- End state of a whole DoH resolve: a returned record, or an attempt
whose decode loop never came back. -/
inductive DohOutcome where
  | settled (r : ResolutionResult)
  | hang
deriving DecidableEq

/-- The attempt the source runs for each method, given the deterministic
fetch behaviour of that method. -/
def dohAttempt (domain : String) (server : DNSServer) (rtype : String)
    (rt : Nat) (postFetch getFetch : FetchOutcome) : HMethod → AttemptResult
  | .POST => resolveWithPOST domain server rtype rt postFetch
  | .GET => resolveWithGET domain server rtype rt getFetch

/-- The method of the primary attempt `DoHResolver.resolve` makes for a
server address: POST exactly when the provider config is POST plus
wireformat (the outer `if` of the try block), GET otherwise. -/
def primaryMethod (addr : String) : HMethod :=
  if (getProviderConfig addr).method = .POST ∧
      (getProviderConfig addr).format = .wireformat then .POST else .GET

/-- The method of the fallback attempt: GET when `config.method` is POST,
POST otherwise (the `if` inside the catch block). -/
def fallbackMethod (addr : String) : HMethod :=
  if (getProviderConfig addr).method = .POST then .GET else .POST

/-- `DoHResolver.resolve` (src/lib/doh-resolver.js lines 29 to 60): run
the primary attempt; on a throw run the fallback attempt once; on a
second throw build the failure record with `handleError`. The second
component records which attempt functions ran, in order. -/
def dohResolve (domain : String) (server : DNSServer) (rtype : String)
    (timeoutMs rt : Nat) (postFetch getFetch : FetchOutcome) :
    DohOutcome × List HMethod :=
  match dohAttempt domain server rtype rt postFetch getFetch
      (primaryMethod server.address) with
  | .ok r => (.settled r, [primaryMethod server.address])
  | .hang => (.hang, [primaryMethod server.address])
  | .thrown _ =>
    match dohAttempt domain server rtype rt postFetch getFetch
        (fallbackMethod server.address) with
    | .ok r =>
      (.settled r, [primaryMethod server.address, fallbackMethod server.address])
    | .hang =>
      (.hang, [primaryMethod server.address, fallbackMethod server.address])
    | .thrown e2 =>
      (.settled (handleError e2 timeoutMs rt server domain rtype),
        [primaryMethod server.address, fallbackMethod server.address])

/-- The method opposite an HTTP method. -/
def oppositeM : HMethod → HMethod
  | .POST => .GET
  | .GET => .POST

/-! ## DoTTransport (src/unnamed/part_001, DoTResolver.resolve)

The callback-driven TLS exchange is modelled as a step function over the
closure state of one `resolve` call, driven by the externally observable
events. A `data`, `error` or `connect` event is only delivered while the
socket is not destroyed, and the timer only fires while not cleared
(`clearTimeout` semantics); the `close` event, by contrast, is also
emitted by the `socket.destroy()` inside `cleanup`, so it is delivered
unconditionally, exactly as Node does. The promise `resolve` function is
modelled first-write-wins (ECMAScript promise resolution), while
`resolveCalls` counts every invocation the handlers make. -/

/-- One externally driven event of a DoT call. -/
inductive DotEvent where
  | timeoutFire
  | connectOk
  | connectFail (msg : String)
  | data (chunk : List Nat)
  | sockError (msg : String)
  | closeEv
deriving DecidableEq, Repr

/-- The closure state of one `DoTResolver.resolve` call: the reassembly
buffer and expected length, whether `clearTimeout` and `socket.destroy`
have run, the settled promise value, how often the resolve function was
invoked, and whether a handler is stuck in a decode loop that never
returns. -/
structure DotState where
  respBuf : List Nat
  expLen : Option Nat
  timerCleared : Bool
  sockDestroyed : Bool
  settled : Option ResolutionResult
  resolveCalls : Nat
  hung : Bool
deriving DecidableEq, Repr

/-- The state a call starts in. -/
def dotInit : DotState :=
  { respBuf := [], expLen := none, timerCleared := false,
    sockDestroyed := false, settled := none, resolveCalls := 0, hung := false }

/-- One invocation of the promise `resolve` function: the first value
sticks, every invocation is counted. -/
def jsResolve (r : ResolutionResult) (st : DotState) : DotState :=
  { st with
      settled := match st.settled with
        | some r0 => some r0
        | none => some r,
      resolveCalls := st.resolveCalls + 1 }

/-- `cleanup()`: `clearTimeout(timeoutHandle); socket.destroy()`. -/
def dotCleanup (st : DotState) : DotState :=
  { st with timerCleared := true, sockDestroyed := true }

/-- The per-call context the handlers close over, with the elapsed time
the records report. -/
structure DotCtx where
  server : DNSServer
  domain : String
  rtype : String
  rt : Nat

/-- A DoT failure record, as every error path of the handlers builds it. -/
def dotErrResult (c : DotCtx) (msg : String) : ResolutionResult :=
  { success := false, responseTime := c.rt, result := none,
    error := some msg, server := c.server, domain := c.domain,
    rtype := c.rtype, method := none, rawResponse := none, note := none }

/-- The DoT success record: the parsed answers plus the raw frame. -/
def dotOkResult (c : DotCtx) (answers : List String) (frame : List Nat) :
    ResolutionResult :=
  { success := true, responseTime := c.rt, result := some (.strs answers),
    error := none, server := c.server, domain := c.domain, rtype := c.rtype,
    method := none, rawResponse := some (.bytes frame), note := none }

/-- The wrapped message of a DoT parse failure; the tail after the fixed
source text abbreviates the Node range-error message, whose exact wording
no claim depends on. -/
def dotParseFailMsg : String :=
  "Failed to parse DoT response: Failed to parse DNS response: offset out of range"

/-- The completion check ending the data handler: with the expected frame
length known and the 2-byte length already consumed from `buf`, slice and
parse the frame once enough bytes are buffered, settling with the success
record, with the wrapped parse error, or never returning when the decode
loop diverges. -/
def dotFrameCheck (c : DotCtx) (st : DotState) (l : Nat) (buf : List Nat) :
    DotState :=
  if buf.length ≥ l then
    match parseDNSResponse (buf.take l) with
    | .ok answers =>
      jsResolve (dotOkResult c answers (buf.take l))
        (dotCleanup { st with respBuf := buf, expLen := some l })
    | .err =>
      jsResolve (dotErrResult c dotParseFailMsg)
        (dotCleanup { st with respBuf := buf, expLen := some l })
    | .hang => { st with respBuf := buf, expLen := some l, hung := true }
  else { st with respBuf := buf, expLen := some l }

/-- One handler dispatch of `DoTResolver.resolve` (src/unnamed/part_001
lines 28 to 210). The data handler concatenates the chunk, consumes the
2-byte length once at least two bytes are buffered, and on reaching the
expected length slices the frame, parses it and settles; the timeout,
connect-failure, socket-error and close handlers settle with their error
records; every settling path runs `cleanup` first. The close handler
guard `if (timeoutHandle)` is always true, because the handle variable is
assigned synchronously and `clearTimeout` does not null it. -/
def dotStep (c : DotCtx) (st : DotState) (ev : DotEvent) : DotState :=
  if st.hung then st else
  match ev with
  | .timeoutFire =>
    if st.timerCleared then st
    else jsResolve (dotErrResult c "Connection timeout") (dotCleanup st)
  | .connectOk => st
  | .connectFail msg =>
    if st.sockDestroyed then st
    else jsResolve (dotErrResult c msg) (dotCleanup st)
  | .sockError msg =>
    if st.sockDestroyed then st
    else jsResolve (dotErrResult c msg) (dotCleanup st)
  | .closeEv =>
    jsResolve (dotErrResult c "Connection closed unexpectedly") (dotCleanup st)
  | .data chunk =>
    if st.sockDestroyed then st
    else
      match st.expLen with
      | none =>
        if (st.respBuf ++ chunk).length ≥ 2 then
          dotFrameCheck c st (looseU16 (st.respBuf ++ chunk) 0)
            ((st.respBuf ++ chunk).drop 2)
        else { st with respBuf := st.respBuf ++ chunk, expLen := none }
      | some l => dotFrameCheck c st l (st.respBuf ++ chunk)

/-- A whole call: the event trace folded over the initial state. -/
def runDot (c : DotCtx) (evs : List DotEvent) : DotState :=
  evs.foldl (dotStep c) dotInit

/-- The response frame a complete 2-byte-length-prefixed payload carries. -/
def frameOf (payload : List Nat) : List Nat :=
  (payload.drop 2).take (looseU16 payload 0)

/-- The settled value a complete payload produces, however it is chunked:
the parse outcome of its frame, or nothing when the decode hangs. -/
def dotSettledOf (c : DotCtx) (payload : List Nat) : Option ResolutionResult :=
  match parseDNSResponse (frameOf payload) with
  | .ok answers => some (dotOkResult c answers (frameOf payload))
  | .err => some (dotErrResult c dotParseFailMsg)
  | .hang => none

/-- Whether a complete payload leaves the data handler in a decode loop
that never returns. -/
def dotHungOf (payload : List Nat) : Bool :=
  parseDNSResponse (frameOf payload) = .hang

/-! ## Concrete inputs used by the claim theorems -/

/-- A truncated DoT or DoH message: a full 12-byte header announcing
QDCOUNT 1 with nothing after it. -/
def hdr1Buf : List Nat := [0, 0, 0, 0, 0, 1, 0, 0, 0, 0, 0, 0]

/-- A response with QDCOUNT 0 and one AAAA answer (pointer name, TYPE 28,
CLASS 1, TTL 0, RDLENGTH 16, RDATA 2001:db8::1). -/
def aaaaBuf : List Nat :=
  [0, 0, 0x81, 0x80, 0, 0, 0, 1, 0, 0, 0, 0,
   0xC0, 0x0C, 0, 28, 0, 1, 0, 0, 0, 0, 0, 16,
   0x20, 0x01, 0x0D, 0xB8, 0, 0, 0, 0, 0, 0, 0, 0, 0, 0, 0, 1]

/-- The context of the concrete DoT runs. -/
def dotCtx0 : DotCtx := ⟨⟨"srv", "9.9.9.9", none⟩, "example.com", "A", 3⟩

/-- A well-formed ANCOUNT 0 response body: header with QDCOUNT 1,
ANCOUNT 0, and one question for the name a. -/
def emptyRespBody : List Nat :=
  [0, 0, 0x81, 0x80, 0, 1, 0, 0, 0, 0, 0, 0, 1, 97, 0, 0, 1, 0, 1]

/-- That body behind its 2-byte length prefix, as a DoT payload. -/
def emptyRespPayload : List Nat := [0, 19] ++ emptyRespBody

/-- An all-zero 12-byte body behind its length prefix (QDCOUNT 0,
ANCOUNT 0, so it parses to the empty answer list). -/
def zeroFramePayload : List Nat := [0, 12, 0, 0, 0, 0, 0, 0, 0, 0, 0, 0, 0, 0]

/-- A DoT payload carrying one A answer for 93.184.216.34. -/
def aRespPayload : List Nat :=
  [0, 35,
   0, 0, 0x81, 0x80, 0, 1, 0, 1, 0, 0, 0, 0,
   1, 97, 0, 0, 1, 0, 1,
   0xC0, 0x0C, 0, 1, 0, 1, 0, 0, 0, 0, 0, 4, 93, 184, 216, 34]

/-- The Cloudflare server descriptor of the concrete DoH runs (a GET plus
json provider). -/
def cfServer : DNSServer := ⟨"Cloudflare", "https://cloudflare-dns.com/dns-query", none⟩

/-- A parsed JSON body with Status 3 (NXDOMAIN) and no answers. -/
def nxJson : DnsJson := ⟨some 3, some [], true⟩

/-- A 2xx JSON DoH response carrying `nxJson`. -/
def nxResp : HttpResp :=
  { ok := true, status := 200, statusText := "OK",
    contentType := some "application/dns-json",
    bodyBytes := [], bodyText := "", bodyJson := some nxJson }

/-- A fetch rejection with code ECONNREFUSED. -/
def connRefusedErr : JsError := ⟨"Error", some "ECONNREFUSED", "connect ECONNREFUSED"⟩

/-! ## Helper lemmas -/

lemma jsWalkFuel_nan (buf : List Nat) : ∀ fuel : Nat, jsWalkFuel buf fuel none = none := by
  intro fuel
  induction fuel with
  | zero => rfl
  | succ f ih => exact ih

lemma writeLabels_sound :
    ∀ (ls : List String) (bytes out : List Nat), writeLabels bytes ls = some out →
      out = bytes ++ (ls.map fun l => l.length :: labelBytes l).flatten := by
  intro ls
  induction ls with
  | nil =>
    intro bytes out h
    simp only [writeLabels, Option.some.injEq] at h
    simp [h.symm]
  | cons l rest ih =>
    intro bytes out h
    simp only [writeLabels] at h
    split at h
    · have hout := ih _ _ h
      rw [hout]
      simp [List.append_assoc]
    · exact absurd h (by simp)

lemma shapeOK_of_success (r : ResolutionResult) (h1 : r.success = true)
    (h2 : r.result.isSome = true) (h3 : r.error = none) : shapeOK r = true := by
  unfold shapeOK
  rw [h1, h2, h3]
  rfl

lemma shapeOK_of_failure (r : ResolutionResult) (h1 : r.success = false)
    (h2 : r.error.isSome = true) (h3 : r.result = none) : shapeOK r = true := by
  unfold shapeOK
  rw [h1, h2, h3]
  rfl

lemma resolveWithPOST_ok (d : String) (s : DNSServer) (ty : String) (rt : Nat)
    (f : FetchOutcome) (r : ResolutionResult)
    (h : resolveWithPOST d s ty rt f = .ok r) :
    r.success = true ∧ r.result.isSome = true ∧ r.error = none ∧
      r.method = some "POST" := by
  cases f with
  | thrown e => exact absurd h (by simp [resolveWithPOST])
  | resp rr =>
    simp only [resolveWithPOST] at h
    repeat' split at h
    all_goals
      first
      | (injection h with h2; subst h2; exact ⟨rfl, rfl, rfl, rfl⟩)
      | exact absurd h (by simp)

lemma resolveWithGET_ok (d : String) (s : DNSServer) (ty : String) (rt : Nat)
    (f : FetchOutcome) (r : ResolutionResult)
    (h : resolveWithGET d s ty rt f = .ok r) :
    r.success = true ∧ r.result.isSome = true ∧ r.error = none ∧
      (r.method = some "GET-binary" ∨ r.method = some "GET-json") := by
  cases f with
  | thrown e => exact absurd h (by simp [resolveWithGET])
  | resp rr =>
    simp only [resolveWithGET] at h
    repeat' split at h
    all_goals
      first
      | (injection h with h2; subst h2; exact ⟨rfl, rfl, rfl, Or.inl rfl⟩)
      | (injection h with h2; subst h2; exact ⟨rfl, rfl, rfl, Or.inr rfl⟩)
      | exact absurd h (by simp)

lemma dohAttempt_ok (d : String) (s : DNSServer) (ty : String) (rt : Nat)
    (pf gf : FetchOutcome) (m : HMethod) (r : ResolutionResult)
    (h : dohAttempt d s ty rt pf gf m = .ok r) :
    r.success = true ∧ r.result.isSome = true ∧ r.error = none := by
  cases m with
  | POST =>
    obtain ⟨h1, h2, h3, _⟩ := resolveWithPOST_ok d s ty rt pf r h
    exact ⟨h1, h2, h3⟩
  | GET =>
    obtain ⟨h1, h2, h3, _⟩ := resolveWithGET_ok d s ty rt gf r h
    exact ⟨h1, h2, h3⟩

lemma handleError_shape (e : JsError) (tm rt : Nat) (s : DNSServer)
    (d ty : String) : shapeOK (handleError e tm rt s d ty) = true := rfl

lemma dohResolve_settled_shape (d : String) (s : DNSServer) (ty : String)
    (tm rt : Nat) (pf gf : FetchOutcome) (r : ResolutionResult)
    (h : (dohResolve d s ty tm rt pf gf).1 = .settled r) : shapeOK r = true := by
  unfold dohResolve at h
  cases hp : dohAttempt d s ty rt pf gf (primaryMethod s.address) with
  | ok r0 =>
    rw [hp] at h
    dsimp only at h
    injection h with h2
    subst h2
    obtain ⟨h1, h2, h3⟩ := dohAttempt_ok d s ty rt pf gf _ _ hp
    exact shapeOK_of_success _ h1 h2 h3
  | hang => rw [hp] at h; exact absurd h (by simp)
  | thrown e =>
    rw [hp] at h
    dsimp only at h
    cases hfb : dohAttempt d s ty rt pf gf (fallbackMethod s.address) with
    | ok r0 =>
      rw [hfb] at h
      dsimp only at h
      injection h with h2
      subst h2
      obtain ⟨h1, h2, h3⟩ := dohAttempt_ok d s ty rt pf gf _ _ hfb
      exact shapeOK_of_success _ h1 h2 h3
    | hang => rw [hfb] at h; exact absurd h (by simp)
    | thrown e2 =>
      rw [hfb] at h
      dsimp only at h
      injection h with h2
      subst h2
      exact handleError_shape e2 tm rt s d ty

lemma shapeOK_dotErr (c : DotCtx) (m : String) :
    shapeOK (dotErrResult c m) = true := rfl

lemma shapeOK_dotOk (c : DotCtx) (a : List String) (fr : List Nat) :
    shapeOK (dotOkResult c a fr) = true := rfl

lemma jsResolve_shape (x : ResolutionResult) (st : DotState)
    (hst : ∀ r, st.settled = some r → shapeOK r = true)
    (hx : shapeOK x = true) :
    ∀ r, (jsResolve x st).settled = some r → shapeOK r = true := by
  intro r h
  unfold jsResolve at h
  dsimp only at h
  cases hs : st.settled with
  | none =>
    rw [hs] at h
    injection h with h2
    subst h2
    exact hx
  | some r0 =>
    rw [hs] at h
    injection h with h2
    subst h2
    exact hst r0 hs

lemma dotFrameCheck_shape (c : DotCtx) (st : DotState) (l : Nat) (buf : List Nat)
    (hst : ∀ r, st.settled = some r → shapeOK r = true) :
    ∀ r, (dotFrameCheck c st l buf).settled = some r → shapeOK r = true := by
  intro r h
  unfold dotFrameCheck at h
  split at h
  · split at h
    · exact jsResolve_shape _ _ hst (shapeOK_dotOk _ _ _) r h
    · exact jsResolve_shape _ _ hst (shapeOK_dotErr _ _) r h
    · exact hst r h
  · exact hst r h

lemma dotStep_shape (c : DotCtx) (st : DotState) (ev : DotEvent)
    (hst : ∀ r, st.settled = some r → shapeOK r = true) :
    ∀ r, (dotStep c st ev).settled = some r → shapeOK r = true := by
  intro r h
  unfold dotStep at h
  split at h
  · exact hst r h
  · cases ev <;> dsimp only at h
    case timeoutFire =>
      split at h
      · exact hst r h
      · exact jsResolve_shape _ _ hst (shapeOK_dotErr _ _) r h
    case connectOk => exact hst r h
    case connectFail msg =>
      split at h
      · exact hst r h
      · exact jsResolve_shape _ _ hst (shapeOK_dotErr _ _) r h
    case sockError msg =>
      split at h
      · exact hst r h
      · exact jsResolve_shape _ _ hst (shapeOK_dotErr _ _) r h
    case closeEv => exact jsResolve_shape _ _ hst (shapeOK_dotErr _ _) r h
    case data chunk =>
      split at h
      · exact hst r h
      · split at h
        · split at h
          · exact dotFrameCheck_shape _ _ _ _ hst r h
          · exact hst r h
        · exact dotFrameCheck_shape _ _ _ _ hst r h

lemma runDot_shape_aux (c : DotCtx) :
    ∀ (evs : List DotEvent) (st : DotState),
      (∀ r, st.settled = some r → shapeOK r = true) →
      ∀ r, (evs.foldl (dotStep c) st).settled = some r → shapeOK r = true := by
  intro evs
  induction evs with
  | nil => intro st hst; exact hst
  | cons ev rest ih =>
    intro st hst
    exact ih (dotStep c st ev) (dotStep_shape c st ev hst)

lemma dotAnswers_layout (buf : List Nat) :
    ∀ (count off : Nat) (l : List String), dotAnswers buf off count = .ok l →
      ∃ recs, dotLayout buf off count = some recs ∧
        l = recs.filterMap (dotExtract buf) := by
  intro count
  induction count with
  | zero =>
    intro off l h
    injection h with h2
    exact ⟨[], rfl, by simp [← h2]⟩
  | succ n ih =>
    intro off l h
    simp only [dotAnswers] at h
    cases hne : nameEnd buf off with
    | none => rw [hne] at h; exact absurd h (by simp)
    | some o1 =>
      rw [hne] at h
      dsimp only at h
      cases ht : readU16 buf o1 with
      | none => rw [ht] at h; exact absurd h (by simp)
      | some t =>
        cases hr : readU16 buf (o1 + 8) with
        | none => rw [ht, hr] at h; exact absurd h (by simp)
        | some rl =>
          rw [ht, hr] at h
          dsimp only at h
          by_cases h14 : t = 1 ∧ rl = 4
          · rw [if_pos h14] at h
            cases hrec : dotAnswers buf (o1 + 10 + rl) n with
            | ok l2 =>
              rw [hrec] at h
              simp only [consOk] at h
              injection h with h2
              obtain ⟨recs, hL, hFM⟩ := ih (o1 + 10 + rl) l2 hrec
              refine ⟨⟨t, rl, o1 + 10⟩ :: recs, ?_, ?_⟩
              · simp only [dotLayout]
                rw [hne]
                dsimp only
                rw [ht, hr]
                dsimp only
                rw [hL]
                rfl
              · rw [← h2, hFM]
                simp [List.filterMap_cons, dotExtract, h14.1, h14.2]
            | err => rw [hrec] at h; exact absurd h (by simp [consOk])
            | hang => rw [hrec] at h; exact absurd h (by simp [consOk])
          · rw [if_neg h14] at h
            by_cases h28 : t = 28 ∧ rl = 16
            · rw [if_pos h28] at h
              split at h
              · cases hrec : dotAnswers buf (o1 + 10 + rl) n with
                | ok l2 =>
                  rw [hrec] at h
                  simp only [consOk] at h
                  injection h with h2
                  obtain ⟨recs, hL, hFM⟩ := ih (o1 + 10 + rl) l2 hrec
                  refine ⟨⟨t, rl, o1 + 10⟩ :: recs, ?_, ?_⟩
                  · simp only [dotLayout]
                    rw [hne]
                    dsimp only
                    rw [ht, hr]
                    dsimp only
                    rw [hL]
                    rfl
                  · rw [← h2, hFM]
                    simp [List.filterMap_cons, dotExtract, h28.1, h28.2]
                | err => rw [hrec] at h; exact absurd h (by simp [consOk])
                | hang => rw [hrec] at h; exact absurd h (by simp [consOk])
              · exact absurd h (by simp)
            · rw [if_neg h28] at h
              obtain ⟨recs, hL, hFM⟩ := ih _ _ h
              refine ⟨⟨t, rl, o1 + 10⟩ :: recs, ?_, ?_⟩
              · simp only [dotLayout]
                rw [hne]
                dsimp only
                rw [ht, hr]
                dsimp only
                rw [hL]
                rfl
              · rw [hFM]
                simp [List.filterMap_cons, dotExtract, h14, h28]

lemma dohAnswers_layout (buf : List Nat) :
    ∀ (count off : Nat) (l : List String), dohAnswers buf off count = .ok l →
      ∃ recs, dohLayout buf off count = some recs ∧
        l = recs.filterMap (dohExtract buf) := by
  intro count
  induction count with
  | zero =>
    intro off l h
    injection h with h2
    exact ⟨[], rfl, by simp [← h2]⟩
  | succ n ih =>
    intro off l h
    simp only [dohAnswers] at h
    cases hne : nameEnd buf off with
    | none => rw [hne] at h; exact absurd h (by simp)
    | some o1 =>
      rw [hne] at h
      dsimp only at h
      by_cases h14 : looseU16 buf o1 = 1 ∧ looseU16 buf (o1 + 8) = 4
      · rw [if_pos h14] at h
        cases hrec : dohAnswers buf (o1 + 10 + looseU16 buf (o1 + 8)) n with
        | ok l2 =>
          rw [hrec] at h
          simp only [consOk] at h
          injection h with h2
          obtain ⟨recs, hL, hFM⟩ := ih (o1 + 10 + looseU16 buf (o1 + 8)) l2 hrec
          refine ⟨⟨looseU16 buf o1, looseU16 buf (o1 + 8), o1 + 10⟩ :: recs, ?_, ?_⟩
          · simp only [dohLayout]
            rw [hne]
            dsimp only
            rw [hL]
            rfl
          · rw [← h2, hFM]
            simp [List.filterMap_cons, dohExtract, h14.1, h14.2]
        | err => rw [hrec] at h; exact absurd h (by simp [consOk])
        | hang => rw [hrec] at h; exact absurd h (by simp [consOk])
      · rw [if_neg h14] at h
        obtain ⟨recs, hL, hFM⟩ := ih _ _ h
        refine ⟨⟨looseU16 buf o1, looseU16 buf (o1 + 8), o1 + 10⟩ :: recs, ?_, ?_⟩
        · simp only [dohLayout]
          rw [hne]
          dsimp only
          rw [hL]
          rfl
        · rw [hFM]
          simp [List.filterMap_cons, dohExtract, h14]

lemma parseDNSResponse_layout (buf : List Nat) (l : List String)
    (h : parseDNSResponse buf = .ok l) :
    ∃ recs, dotAnswerLayout buf = some recs ∧
      l = recs.filterMap (dotExtract buf) := by
  unfold parseDNSResponse at h
  unfold dotAnswerLayout
  cases h4 : readU16 buf 4 with
  | none => rw [h4] at h; exact absurd h (by simp)
  | some qd =>
    rw [h4] at h
    dsimp only at h
    cases hq : skipQuestions buf 12 qd with
    | none => rw [hq] at h; exact absurd h (by simp)
    | some off =>
      rw [hq] at h
      dsimp only at h
      cases h6 : readU16 buf 6 with
      | none => rw [h6] at h; exact absurd h (by simp)
      | some an =>
        rw [h6] at h
        dsimp only at h
        dsimp only
        rw [hq]
        dsimp only
        exact dotAnswers_layout buf an off l h

lemma parseDNSMessage_layout (buf : List Nat) (l : List String)
    (h : parseDNSMessage buf = .ok l) :
    ∃ recs, dohAnswerLayout buf = some recs ∧
      l = recs.filterMap (dohExtract buf) := by
  unfold parseDNSMessage at h
  unfold dohAnswerLayout
  cases hq : skipQuestions buf 12 (looseU16 buf 4) with
  | none => rw [hq] at h; exact absurd h (by simp)
  | some off =>
    rw [hq] at h
    dsimp only at h
    exact dohAnswers_layout buf (looseU16 buf 6) off l h

lemma jsResolve_keeps (x : ResolutionResult) (st : DotState)
    (r : ResolutionResult) (h : st.settled = some r) :
    (jsResolve x st).settled = some r := by
  unfold jsResolve
  dsimp only
  rw [h]

lemma dotFrameCheck_keeps (c : DotCtx) (st : DotState) (l : Nat)
    (buf : List Nat) (r : ResolutionResult) (h : st.settled = some r) :
    (dotFrameCheck c st l buf).settled = some r := by
  unfold dotFrameCheck
  split
  · split
    · exact jsResolve_keeps _ _ _ h
    · exact jsResolve_keeps _ _ _ h
    · exact h
  · exact h

lemma dotStep_keeps (c : DotCtx) (st : DotState) (ev : DotEvent)
    (r : ResolutionResult) (h : st.settled = some r) :
    (dotStep c st ev).settled = some r := by
  unfold dotStep
  split
  · exact h
  · cases ev <;> dsimp only
    case timeoutFire =>
      split
      · exact h
      · exact jsResolve_keeps _ _ _ h
    case connectOk => exact h
    case connectFail msg =>
      split
      · exact h
      · exact jsResolve_keeps _ _ _ h
    case sockError msg =>
      split
      · exact h
      · exact jsResolve_keeps _ _ _ h
    case closeEv => exact jsResolve_keeps _ _ _ h
    case data chunk =>
      split
      · exact h
      · split
        · split
          · exact dotFrameCheck_keeps _ _ _ _ _ h
          · exact h
        · exact dotFrameCheck_keeps _ _ _ _ _ h

lemma dotFrameCheck_teardown (c : DotCtx) (st : DotState) (l : Nat)
    (buf : List Nat)
    (hst : st.settled.isSome = true →
      st.timerCleared = true ∧ st.sockDestroyed = true) :
    (dotFrameCheck c st l buf).settled.isSome = true →
      (dotFrameCheck c st l buf).timerCleared = true ∧
      (dotFrameCheck c st l buf).sockDestroyed = true := by
  unfold dotFrameCheck
  split
  · split
    · exact fun _ => ⟨rfl, rfl⟩
    · exact fun _ => ⟨rfl, rfl⟩
    · exact hst
  · exact hst

lemma dotStep_teardown (c : DotCtx) (st : DotState) (ev : DotEvent)
    (hst : st.settled.isSome = true →
      st.timerCleared = true ∧ st.sockDestroyed = true) :
    (dotStep c st ev).settled.isSome = true →
      (dotStep c st ev).timerCleared = true ∧
      (dotStep c st ev).sockDestroyed = true := by
  unfold dotStep
  split
  · exact hst
  · cases ev <;> dsimp only
    case timeoutFire =>
      split
      · exact hst
      · exact fun _ => ⟨rfl, rfl⟩
    case connectOk => exact hst
    case connectFail msg =>
      split
      · exact hst
      · exact fun _ => ⟨rfl, rfl⟩
    case sockError msg =>
      split
      · exact hst
      · exact fun _ => ⟨rfl, rfl⟩
    case closeEv => exact fun _ => ⟨rfl, rfl⟩
    case data chunk =>
      split
      · exact hst
      · split
        · split
          · exact dotFrameCheck_teardown _ _ _ _ hst
          · exact hst
        · exact dotFrameCheck_teardown _ _ _ _ hst

lemma runDot_teardown_aux (c : DotCtx) :
    ∀ (evs : List DotEvent) (st : DotState),
      (st.settled.isSome = true →
        st.timerCleared = true ∧ st.sockDestroyed = true) →
      (evs.foldl (dotStep c) st).settled.isSome = true →
        (evs.foldl (dotStep c) st).timerCleared = true ∧
        (evs.foldl (dotStep c) st).sockDestroyed = true := by
  intro evs
  induction evs with
  | nil => intro st hst; exact hst
  | cons ev rest ih =>
    intro st hst
    exact ih (dotStep c st ev) (dotStep_teardown c st ev hst)

lemma runDot_append (c : DotCtx) (evs : List DotEvent) (ev : DotEvent) :
    runDot c (evs ++ [ev]) = dotStep c (runDot c evs) ev := by
  simp [runDot]

lemma looseU16_append (p ch : List Nat) (h : 2 ≤ p.length) :
    looseU16 (p ++ ch) 0 = looseU16 p 0 := by
  unfold looseU16
  rw [List.getD_append _ _ _ _ (by omega), List.getD_append _ _ _ _ (by omega)]

lemma frameOf_append (p ch : List Nat) (h : 2 + looseU16 p 0 ≤ p.length) :
    frameOf (p ++ ch) = frameOf p := by
  unfold frameOf
  rw [looseU16_append p ch (by omega)]
  rw [List.drop_append_of_le_length (by omega : 2 ≤ p.length)]
  rw [List.take_append_of_le_length (by simp [List.length_drop]; omega)]

/-- The reassembly invariant tying the cumulative delivered bytes `p` to
the machine state: before two bytes arrive the raw prefix is buffered;
before the announced frame is complete the remainder is buffered behind
the consumed length; from the first event that completes the frame on,
the state is settled with the parse outcome of the frame of `p` (or hung
on a diverging decode), with the socket torn down. -/
def DotFeedInv (c : DotCtx) (p : List Nat) (st : DotState) : Prop :=
  if p.length < 2 then
    st = { dotInit with respBuf := p }
  else if p.length < 2 + looseU16 p 0 then
    st = { dotInit with respBuf := p.drop 2, expLen := some (looseU16 p 0) }
  else
    match parseDNSResponse (frameOf p) with
    | .ok a =>
      st.settled = some (dotOkResult c a (frameOf p)) ∧
        st.sockDestroyed = true ∧ st.hung = false
    | .err =>
      st.settled = some (dotErrResult c dotParseFailMsg) ∧
        st.sockDestroyed = true ∧ st.hung = false
    | .hang => st.settled = none ∧ st.hung = true

lemma jsResolve_settled_of_none (x : ResolutionResult) (st : DotState)
    (h : st.settled = none) : (jsResolve x st).settled = some x := by
  unfold jsResolve
  dsimp only
  rw [h]

lemma dotFrameCheck_inv (c : DotCtx) (q : List Nat) (st : DotState)
    (hq2 : 2 ≤ q.length)
    (htc : st.timerCleared = false) (hsd : st.sockDestroyed = false)
    (hse : st.settled = none) (hrc : st.resolveCalls = 0)
    (hhu : st.hung = false) :
    DotFeedInv c q (dotFrameCheck c st (looseU16 q 0) (q.drop 2)) := by
  unfold DotFeedInv frameOf
  rw [if_neg (by omega)]
  unfold dotFrameCheck
  by_cases hc : (q.drop 2).length ≥ looseU16 q 0
  · rw [if_pos hc]
    have hc2 : ¬q.length < 2 + looseU16 q 0 := by
      simp only [List.length_drop] at hc
      omega
    rw [if_neg hc2]
    cases parseDNSResponse ((q.drop 2).take (looseU16 q 0)) with
    | ok a =>
      dsimp only
      exact ⟨jsResolve_settled_of_none _ _ hse, rfl, hhu⟩
    | err =>
      dsimp only
      exact ⟨jsResolve_settled_of_none _ _ hse, rfl, hhu⟩
    | hang =>
      dsimp only
      exact ⟨hse, rfl⟩
  · rw [if_neg hc]
    have hc2 : q.length < 2 + looseU16 q 0 := by
      simp only [List.length_drop] at hc
      omega
    rw [if_pos hc2]
    obtain ⟨rb, el, tc, sd, se, rc, hu⟩ := st
    simp only at htc hsd hse hrc hhu
    subst htc
    subst hsd
    subst hse
    subst hrc
    subst hhu
    rfl

lemma dotFeed_step (c : DotCtx) (p ch : List Nat) (st : DotState)
    (hinv : DotFeedInv c p st) :
    DotFeedInv c (p ++ ch) (dotStep c st (.data ch)) := by
  unfold DotFeedInv at hinv
  by_cases h2 : p.length < 2
  · rw [if_pos h2] at hinv
    subst hinv
    have hred : dotStep c { dotInit with respBuf := p } (.data ch) =
        if (p ++ ch).length ≥ 2 then
          dotFrameCheck c { dotInit with respBuf := p }
            (looseU16 (p ++ ch) 0) ((p ++ ch).drop 2)
        else { dotInit with respBuf := p ++ ch } := rfl
    by_cases h2c : (p ++ ch).length ≥ 2
    · rw [hred, if_pos h2c]
      exact dotFrameCheck_inv c (p ++ ch) _ h2c rfl rfl rfl rfl rfl
    · rw [hred, if_neg h2c]
      unfold DotFeedInv
      rw [if_pos (by omega)]
  · rw [if_neg h2] at hinv
    by_cases hlt : p.length < 2 + looseU16 p 0
    · rw [if_pos hlt] at hinv
      subst hinv
      have e1 : looseU16 (p ++ ch) 0 = looseU16 p 0 :=
        looseU16_append p ch (by omega)
      have e2 : (p ++ ch).drop 2 = p.drop 2 ++ ch :=
        List.drop_append_of_le_length (by omega)
      have hred : dotStep c
          { dotInit with respBuf := p.drop 2, expLen := some (looseU16 p 0) }
          (.data ch) =
          dotFrameCheck c
            { dotInit with respBuf := p.drop 2, expLen := some (looseU16 p 0) }
            (looseU16 p 0) (p.drop 2 ++ ch) := rfl
      rw [hred, ← e2, ← e1]
      exact dotFrameCheck_inv c (p ++ ch) _ (by simp; omega) rfl rfl rfl rfl rfl
    · rw [if_neg hlt] at hinv
      have hfr : frameOf (p ++ ch) = frameOf p := frameOf_append p ch (by omega)
      have e1 : looseU16 (p ++ ch) 0 = looseU16 p 0 :=
        looseU16_append p ch (by omega)
      unfold DotFeedInv
      rw [if_neg (by simp; omega), if_neg (by rw [e1]; simp; omega), hfr]
      cases hp : parseDNSResponse (frameOf p) with
      | ok a =>
        rw [hp] at hinv
        obtain ⟨hs, hd, hh⟩ := hinv
        have hst : dotStep c st (.data ch) = st := by
          unfold dotStep
          rw [if_neg (by simp [hh])]
          dsimp only
          rw [if_pos hd]
        rw [hst]
        dsimp only
        exact ⟨hs, hd, hh⟩
      | err =>
        rw [hp] at hinv
        obtain ⟨hs, hd, hh⟩ := hinv
        have hst : dotStep c st (.data ch) = st := by
          unfold dotStep
          rw [if_neg (by simp [hh])]
          dsimp only
          rw [if_pos hd]
        rw [hst]
        dsimp only
        exact ⟨hs, hd, hh⟩
      | hang =>
        rw [hp] at hinv
        obtain ⟨hs, hh⟩ := hinv
        have hst : dotStep c st (.data ch) = st := by
          unfold dotStep
          rw [if_pos hh]
        rw [hst]
        dsimp only
        exact ⟨hs, hh⟩

lemma dotFeed_run (c : DotCtx) :
    ∀ (chunks : List (List Nat)) (p : List Nat) (st : DotState),
      DotFeedInv c p st →
      DotFeedInv c (p ++ chunks.flatten)
        ((chunks.map DotEvent.data).foldl (dotStep c) st) := by
  intro chunks
  induction chunks with
  | nil =>
    intro p st h
    simpa using h
  | cons chnk rest ih =>
    intro p st h
    have h2 := ih (p ++ chnk) _ (dotFeed_step c p chnk st h)
    simpa [List.append_assoc] using h2

/-! ## Claim theorems -/

/-- C1: every transport returns a structurally sound record for every
environment behaviour and input: a success record carries a result and no
error, a failure record an error and no result. Each resolve is modelled
as a total function into `ResolutionResult` (or a settled promise value),
mirroring the try and catch blocks that keep every thrown error inside
the transport, so no exception reaches the caller. -/
theorem resolve_result_shape_invariant :
    (∀ (st : ClassicState) (env : ClassicEnv) (d : String) (s : DNSServer)
        (ty : String), shapeOK (classicResolve st env d s ty) = true) ∧
    (∀ (d : String) (s : DNSServer) (ty : String) (tm rt : Nat)
        (pf gf : FetchOutcome) (r : ResolutionResult),
      (dohResolve d s ty tm rt pf gf).1 = .settled r → shapeOK r = true) ∧
    (∀ (c : DotCtx) (evs : List DotEvent) (r : ResolutionResult),
      (runDot c evs).settled = some r → shapeOK r = true) ∧
    (∀ (d : String) (s : DNSServer) (ty : String) (rt : Nat),
      shapeOK (doqResolve d s ty rt) = true) := by
  refine ⟨?_, ?_, ?_, fun _ _ _ _ => rfl⟩
  · intro st env d s ty
    unfold classicResolve
    cases env.outcome (classicMethodFor ty) <;> rfl
  · exact fun d s ty tm rt pf gf r h => dohResolve_settled_shape d s ty tm rt pf gf r h
  · intro c evs r h
    exact runDot_shape_aux c evs dotInit (fun r0 h0 => by simp [dotInit] at h0) r h

/-- C8: a DoQ resolve always returns the fixed not-implemented failure
record: success false, the fixed error string, no result field, for every
input; the definition takes no I/O environment because the stub performs
no network activity, and it is a total function, so it never throws. -/
theorem doq_fixed_not_implemented_result :
    ∀ (domain : String) (server : DNSServer) (rtype : String) (rt : Nat),
      doqResolve domain server rtype rt =
        { success := false, responseTime := rt, result := none,
          error := some doqError, server := server, domain := domain,
          rtype := rtype, method := none, rawResponse := none,
          note := some doqNote } ∧
      (doqResolve domain server rtype rt).success = false ∧
      (doqResolve domain server rtype rt).error = some doqError ∧
      (doqResolve domain server rtype rt).result = none :=
  fun _ _ _ _ => ⟨rfl, rfl, rfl, rfl⟩

/-- C10: `DNSResolver.setTimeout` rewrites exactly the timeout field, the
whole instance state, and `DNSResolver.resolve` never reads it: two runs
with different configured timeouts but the same inputs and the same
underlying resolver behaviour return the same record. -/
theorem classic_timeout_noninterference :
    (∀ (t : Nat) (st : ClassicState), ClassicState.setTimeout t st = ⟨t⟩) ∧
    (∀ (t1 t2 : Nat) (env : ClassicEnv) (domain : String) (server : DNSServer)
        (rtype : String),
      classicResolve ⟨t1⟩ env domain server rtype =
        classicResolve ⟨t2⟩ env domain server rtype) :=
  ⟨fun _ _ => rfl, fun _ _ _ _ _ _ => rfl⟩

/-- C3: every query `createDNSMessage` returns is the 12-byte header
(transaction id, flags 0x0100, QDCOUNT 1, the other counts 0) followed by
the length-prefixed labels, a zero byte, the looked-up 2-byte type code
and QCLASS 1; the type table maps the eight known names case-insensitively
and defaults anything else to 1; encoding a.bb.ccc yields label lengths
1, 2, 3 before the zero terminator. -/
theorem createDNSMessage_wire_layout :
    (∀ (tid : Nat) (domain : String) (t : Nat) (msg : List Nat),
        createDNSMessage tid domain t = some msg →
        msg = dnsHeader (tid % 65536) ++ questionSection domain t) ∧
    (∀ tid : Nat,
        dnsHeader tid = [tid / 256 % 256, tid % 256, 1, 0, 0, 1, 0, 0, 0, 0, 0, 0]) ∧
    (getDNSType "A" = 1 ∧ getDNSType "NS" = 2 ∧ getDNSType "CNAME" = 5 ∧
      getDNSType "SOA" = 6 ∧ getDNSType "MX" = 15 ∧ getDNSType "TXT" = 16 ∧
      getDNSType "AAAA" = 28 ∧ getDNSType "PTR" = 12 ∧ getDNSType "mx" = 15 ∧
      getDNSType "aAaA" = 28 ∧ getDNSType "SRV" = 1 ∧ getDNSType "" = 1) ∧
    (∀ t1 t2 : String, jsToUpper t1 = jsToUpper t2 → getDNSType t1 = getDNSType t2) ∧
    createDNSMessage 0 "a.bb.ccc" (getDNSType "A") =
      some [0, 0, 1, 0, 0, 1, 0, 0, 0, 0, 0, 0,
            1, 97, 2, 98, 98, 3, 99, 99, 99, 0, 0, 1, 0, 1] := by
  refine ⟨?_, fun tid => rfl, by decide, ?_, by decide⟩
  · intro tid domain t msg h
    unfold createDNSMessage at h
    split at h
    next => exact absurd h (by simp)
    next bytes heq =>
      split at h
      · split at h
        · split at h
          · have hmsg : bytes ++ [0] ++ u16be t ++ u16be 1 = msg := by
              simpa using h
            rw [← hmsg, writeLabels_sound _ _ _ heq]
            unfold questionSection
            simp [List.append_assoc]
          · exact absurd h (by simp)
        · exact absurd h (by simp)
      · exact absurd h (by simp)
  · intro t1 t2 h
    unfold getDNSType
    rw [h]

/-- C2 (amended): whenever a decoder returns normally, its answer list is
exactly the per-record extraction folded over the laid-out answer records
in answer order, where extraction for the DoT decoder emits the TYPE 1
RDLENGTH 4 records as dotted-decimal and the TYPE 28 RDLENGTH 16 records
as colon-joined lowercase hex, while extraction for the DoH decoder emits
only the TYPE 1 RDLENGTH 4 records (it has no AAAA branch); every other
record contributes nothing while the layout still advances past its
RDATA. A message whose ANCOUNT reads 0 after the questions are walked
decodes to the empty list in both decoders, and the enclosing DoT resolve
settles such a frame with success true and an empty result list. -/
theorem decode_extraction_characterization :
    (∀ (buf : List Nat) (l : List String), parseDNSResponse buf = .ok l →
        ∃ recs, dotAnswerLayout buf = some recs ∧
          l = recs.filterMap (dotExtract buf)) ∧
    (∀ (buf : List Nat) (l : List String), parseDNSMessage buf = .ok l →
        ∃ recs, dohAnswerLayout buf = some recs ∧
          l = recs.filterMap (dohExtract buf)) ∧
    (∀ (buf : List Nat) (qd off : Nat), readU16 buf 4 = some qd →
        skipQuestions buf 12 qd = some off → readU16 buf 6 = some 0 →
        parseDNSResponse buf = .ok []) ∧
    (∀ (buf : List Nat) (off : Nat),
        skipQuestions buf 12 (looseU16 buf 4) = some off → looseU16 buf 6 = 0 →
        parseDNSMessage buf = .ok []) ∧
    (runDot dotCtx0 [.data emptyRespPayload]).settled =
      some (dotOkResult dotCtx0 [] emptyRespBody) := by
  refine ⟨fun buf l h => parseDNSResponse_layout buf l h,
    fun buf l h => parseDNSMessage_layout buf l h, ?_, ?_, by decide⟩
  · intro buf qd off h4 hq h6
    unfold parseDNSResponse
    rw [h4]
    dsimp only
    rw [hq]
    dsimp only
    rw [h6]
    rfl
  · intro buf off hq h6
    unfold parseDNSMessage
    rw [hq]
    dsimp only
    rw [h6]
    rfl

/-- C2 counterexample: `aaaaBuf` lays out exactly one answer record with
TYPE 28 and RDLENGTH 16, and the DoT decoder extracts its address, yet
the DoH decoder returns the empty list for the same bytes — so it is not
true that decode extracts the TYPE 28, RDLENGTH 16 answer records on
every decoder, as the claim states for both cited symbols. -/
theorem doh_decode_drops_aaaa_record :
    dohAnswerLayout aaaaBuf = some [⟨28, 16, 24⟩] ∧
    parseDNSResponse aaaaBuf = .ok ["2001:db8:0:0:0:0:0:1"] ∧
    parseDNSMessage aaaaBuf = .ok [] :=
  ⟨by decide, by decide, by decide⟩

/-- Reachable provider configurations: the built-in table rows are all
POST wireformat or GET json, and the miss default is GET json. -/
lemma getProviderConfig_range (addr : String) :
    getProviderConfig addr = ⟨.POST, .wireformat⟩ ∨
      getProviderConfig addr = ⟨.GET, .json⟩ := by
  unfold getProviderConfig providerConfigs
  simp only [findConfig]
  repeat' split
  all_goals first | exact Or.inl rfl | exact Or.inr rfl

/-- The fallback `if` always picks the method opposite the primary,
because every reachable config pairs POST with wireformat and GET with
json. -/
lemma fallbackMethod_opposite (addr : String) :
    fallbackMethod addr = oppositeM (primaryMethod addr) := by
  rcases getProviderConfig_range addr with h | h <;>
    simp [fallbackMethod, primaryMethod, oppositeM, h]

/-- C4: when the primary DoH attempt throws, exactly one fallback attempt
runs, on the opposite HTTP method, and the attempt log is the primary
method followed by its opposite — one attempt on each method and no
retry loop; when the primary throws and the opposite attempt succeeds,
resolve returns the fallback record, a success whose method field names
the fallback path (GET-binary or GET-json records come only from the GET
attempt, POST records only from the POST attempt); a successful primary
makes exactly one attempt. -/
theorem doh_method_fallback_once :
    (∀ m : HMethod, oppositeM m ≠ m) ∧
    (∀ addr : String, getProviderConfig addr = ⟨.POST, .wireformat⟩ ∨
        getProviderConfig addr = ⟨.GET, .json⟩) ∧
    (∀ (d : String) (s : DNSServer) (ty : String) (tm rt : Nat)
        (pf gf : FetchOutcome) (e : JsError),
      dohAttempt d s ty rt pf gf (primaryMethod s.address) = .thrown e →
      (dohResolve d s ty tm rt pf gf).2 =
        [primaryMethod s.address, oppositeM (primaryMethod s.address)]) ∧
    (∀ (d : String) (s : DNSServer) (ty : String) (tm rt : Nat)
        (pf gf : FetchOutcome) (r : ResolutionResult),
      dohAttempt d s ty rt pf gf (primaryMethod s.address) = .ok r →
      dohResolve d s ty tm rt pf gf = (.settled r, [primaryMethod s.address])) ∧
    (∀ (d : String) (s : DNSServer) (ty : String) (tm rt : Nat)
        (pf gf : FetchOutcome) (e : JsError) (r : ResolutionResult),
      dohAttempt d s ty rt pf gf (primaryMethod s.address) = .thrown e →
      dohAttempt d s ty rt pf gf (oppositeM (primaryMethod s.address)) = .ok r →
      dohResolve d s ty tm rt pf gf =
        (.settled r, [primaryMethod s.address, oppositeM (primaryMethod s.address)]) ∧
        r.success = true) ∧
    (∀ (d : String) (s : DNSServer) (ty : String) (rt : Nat) (f : FetchOutcome)
        (r : ResolutionResult), resolveWithGET d s ty rt f = .ok r →
      r.method = some "GET-binary" ∨ r.method = some "GET-json") ∧
    (∀ (d : String) (s : DNSServer) (ty : String) (rt : Nat) (f : FetchOutcome)
        (r : ResolutionResult), resolveWithPOST d s ty rt f = .ok r →
      r.method = some "POST") := by
  refine ⟨fun m => by cases m <;> simp [oppositeM], getProviderConfig_range, ?_, ?_, ?_,
    fun d s ty rt f r h => (resolveWithGET_ok d s ty rt f r h).2.2.2,
    fun d s ty rt f r h => (resolveWithPOST_ok d s ty rt f r h).2.2.2⟩
  · intro d s ty tm rt pf gf e hp
    unfold dohResolve
    rw [hp, ← fallbackMethod_opposite s.address]
    cases dohAttempt d s ty rt pf gf (fallbackMethod s.address) <;> rfl
  · intro d s ty tm rt pf gf r hp
    unfold dohResolve
    rw [hp]
  · intro d s ty tm rt pf gf e r hp hfb
    rw [← fallbackMethod_opposite s.address] at hfb
    constructor
    · unfold dohResolve
      rw [hp, hfb, fallbackMethod_opposite s.address]
    · exact (dohAttempt_ok d s ty rt pf gf _ r hfb).1

/-- C9: on the DoH GET path a well-formed 2xx JSON body whose Status is
not 0 makes the attempt throw the status error instead of returning a
success with an empty list, which triggers the one-shot method fallback;
concretely, an NXDOMAIN Status 3 body from a GET json provider throws
DNS query failed with status: 3, and when the POST fallback also fails
the final record has success false. -/
theorem doh_get_nonzero_status_throws :
    (∀ (d : String) (s : DNSServer) (ty : String) (rt : Nat) (r : HttpResp)
        (j : DnsJson),
      r.ok = true →
      ctIncludes r.contentType "application/dns-message" = false →
      (ctIncludes r.contentType "application/json" = true ∨
        ctIncludes r.contentType "application/dns-json" = true) →
      r.bodyJson = some j → j.status ≠ some 0 →
      resolveWithGET d s ty rt (.resp r) =
        .thrown ⟨"Error", none,
          "DNS query failed with status: " ++ statusStr j.status⟩) ∧
    resolveWithGET "example.com" cfServer "A" 7 (.resp nxResp) =
      .thrown ⟨"Error", none, "DNS query failed with status: 3"⟩ ∧
    dohResolve "example.com" cfServer "A" 5000 7 (.thrown connRefusedErr)
        (.resp nxResp) =
      (.settled (handleError connRefusedErr 5000 7 cfServer "example.com" "A"),
        [.GET, .POST]) ∧
    (handleError connRefusedErr 5000 7 cfServer "example.com" "A").success = false ∧
    (handleError connRefusedErr 5000 7 cfServer "example.com" "A").error =
      some "Connection refused to https://cloudflare-dns.com/dns-query" := by
  refine ⟨?_, by decide, by decide, rfl, by decide⟩
  intro d s ty rt r j hok hct hjson hbody hstatus
  have hj : (ctIncludes r.contentType "application/json" ||
      ctIncludes r.contentType "application/dns-json") = true := by
    rcases hjson with h | h <;> simp [h]
  unfold resolveWithGET
  dsimp only
  simp [hok, hct, hj, hbody, hstatus]

/-- C7: for a fixed complete 2-byte-length-prefixed payload, however the
bytes are partitioned into data events — one byte at a time, all at once,
or any other split — the call settles with the same value, a function of
the payload alone: the parse outcome of the frame the prefix announces
(and a diverging decode leaves the handler hung regardless of chunking);
concretely, a one-A-answer payload fed byte by byte settles exactly as
when fed in one chunk. -/
theorem dot_chunking_invariance :
    (∀ (c : DotCtx) (payload : List Nat) (chunks : List (List Nat)),
      chunks.flatten = payload → 2 ≤ payload.length →
      2 + looseU16 payload 0 ≤ payload.length →
      (runDot c (chunks.map DotEvent.data)).settled = dotSettledOf c payload ∧
      (runDot c (chunks.map DotEvent.data)).hung = dotHungOf payload) ∧
    (runDot dotCtx0 (aRespPayload.map fun b => DotEvent.data [b])).settled =
      (runDot dotCtx0 [DotEvent.data aRespPayload]).settled ∧
    (runDot dotCtx0 [DotEvent.data aRespPayload]).settled =
      some (dotOkResult dotCtx0 ["93.184.216.34"] (aRespPayload.drop 2)) := by
  refine ⟨?_, by decide, by decide⟩
  intro c payload chunks hj h2 hL
  have hrun := dotFeed_run c chunks [] dotInit (by rfl)
  rw [List.nil_append, hj] at hrun
  unfold DotFeedInv at hrun
  rw [if_neg (by omega), if_neg (by omega)] at hrun
  unfold runDot
  cases hp : parseDNSResponse (frameOf payload) with
  | ok a =>
    rw [hp] at hrun
    obtain ⟨hs, _, hh⟩ := hrun
    constructor
    · rw [hs]
      unfold dotSettledOf
      rw [hp]
    · rw [hh]
      unfold dotHungOf
      rw [hp]
      rfl
  | err =>
    rw [hp] at hrun
    obtain ⟨hs, _, hh⟩ := hrun
    constructor
    · rw [hs]
      unfold dotSettledOf
      rw [hp]
    · rw [hh]
      unfold dotHungOf
      rw [hp]
      rfl
  | hang =>
    rw [hp] at hrun
    obtain ⟨hs, hh⟩ := hrun
    constructor
    · rw [hs]
      unfold dotSettledOf
      rw [hp]
    · rw [hh]
      unfold dotHungOf
      rw [hp]
      rfl

/-- C5 (amended): the settled value of a DoT call never changes once set
— any later terminal event leaves it in place, because ECMAScript promise
resolution is first-write-wins — and whenever the call settles, the timer
has been cleared and the socket destroyed (every settling handler runs
cleanup); but the code itself has no idempotent completion guard, so a
terminal handler can invoke the resolve function again after completion
(see the counterexample), the exactly-once behaviour resting on the
promise machinery rather than on a guard in these handlers. -/
theorem dot_settle_once_and_teardown :
    (∀ (c : DotCtx) (evs : List DotEvent) (ev : DotEvent)
        (r : ResolutionResult),
      (runDot c evs).settled = some r →
      (runDot c (evs ++ [ev])).settled = some r) ∧
    (∀ (c : DotCtx) (evs : List DotEvent),
      (runDot c evs).settled.isSome = true →
      (runDot c evs).timerCleared = true ∧
        (runDot c evs).sockDestroyed = true) := by
  constructor
  · intro c evs ev r h
    rw [runDot_append]
    exact dotStep_keeps c _ ev r h
  · intro c evs
    exact runDot_teardown_aux c evs dotInit (by intro h; simp [dotInit] at h)

/-- C5 counterexample: after a successful data completion, the close
event that socket.destroy() on the completion path emits runs the
close handler, whose `if (timeoutHandle)` guard is still true, so the
resolve function is invoked a second time — there is no idempotent
completion check on this terminal path; the settled value stays the first
(success) record only because promise resolution ignores later calls. -/
theorem dot_close_after_success_resolves_again :
    (runDot dotCtx0 [.data zeroFramePayload, .closeEv]).resolveCalls = 2 ∧
    (runDot dotCtx0 [.data zeroFramePayload, .closeEv]).settled =
      some (dotOkResult dotCtx0 [] [0, 0, 0, 0, 0, 0, 0, 0, 0, 0, 0, 0]) :=
  ⟨by decide, by decide⟩

/-- C6: on a truncated message the decoders do not raise a parse error:
the JS label walk reads past the buffer, the offset becomes NaN and the
while loop runs forever (every fuel bound is exhausted), so both decoders
hang on `hdr1Buf`; and the DoH decoder returns an empty answer list for
the empty buffer instead of raising. -/
theorem decode_truncated_header_hangs :
    (∀ fuel : Nat, jsWalkFuel hdr1Buf fuel (some 12) = none) ∧
    skipName hdr1Buf 12 = none ∧
    parseDNSResponse hdr1Buf = .hang ∧
    parseDNSMessage hdr1Buf = .hang ∧
    parseDNSMessage [] = .ok [] := by
  refine ⟨?_, by decide, by decide, by decide, rfl⟩
  intro fuel
  cases fuel with
  | zero => rfl
  | succ f =>
    rw [show jsWalkFuel hdr1Buf (f + 1) (some 12) = jsWalkFuel hdr1Buf f none from rfl]
    exact jsWalkFuel_nan hdr1Buf f

end Yadnsb
